import Mathlib

/-
  Verification of the certificate-signer reconciliation controller
  (pkg/controller/signer/signer-controller.go).

  The controller is embedded shallowly: every external collaborator
  (object store, approval subresource, CA secret store, PEM codec,
  issuance engine, status/health reporters) is an oracle recorded in an
  `Env`; `reconcile` is a pure function of the environment that returns
  the error the Go function would return together with the ordered
  trace of external calls (reads and writes) it performed.
-/

namespace Signer

abbrev Bytes := List Nat

/-- A CSR status condition ({type, status, reason, message}),
    mirroring csrv1.CertificateSigningRequestCondition. -/
structure Condition where
  type : String
  status : String
  reason : String
  message : String
deriving DecidableEq, Repr

/-- const signerName = "network.openshift.io/signer" -/
def signerName : String := "network.openshift.io/signer"

/-- csrv1.CertificateApproved -/
def certificateApproved : String := "Approved"

/-- csrv1.CertificateDenied -/
def certificateDenied : String := "Denied"

/-- csrv1.CertificateFailed -/
def certificateFailed : String := "Failed"

/-- statusmanager.CertificateSigner, the aggregate-health component name. -/
def certificateSigner : String := "CertificateSigner"

/-- Spec of a CertificateSigningRequest: the signer name and the raw
    PEM-encoded request bytes. -/
structure CSRSpec where
  signerName : String
  request : Bytes
deriving DecidableEq, Repr

/-- Status of a CertificateSigningRequest: conditions and the issued
    certificate (empty until issued). -/
structure CSRStatus where
  conditions : List Condition
  certificate : Bytes
deriving DecidableEq, Repr

structure CertificateSigningRequest where
  name : String
  spec : CSRSpec
  status : CSRStatus
deriving DecidableEq, Repr

/-- corev1.Secret: we model only its Data map. -/
structure Secret where
  data : List (String × Bytes)
deriving DecidableEq, Repr

/-- Go map lookup `secret.Data[k]` (nil, i.e. [], when absent). -/
def Secret.get (s : Secret) (k : String) : Bytes :=
  match s.data.lookup k with
  | some v => v
  | none => []

structure PublicKey where
  raw : Bytes
deriving DecidableEq, Repr

structure PrivateKey where
  raw : Bytes
deriving DecidableEq, Repr

structure Certificate where
  raw : Bytes
deriving DecidableEq, Repr

/-- A decoded x509 certificate request; only the public key is consumed
    by the controller itself. -/
structure CertificateRequest where
  publicKey : PublicKey
  raw : Bytes
deriving DecidableEq, Repr

structure CertificateTemplate where
  raw : Bytes
deriving DecidableEq, Repr

/-- Result of r.client.Get on the CSR: not-found is distinguished
    (apierrors.IsNotFound). -/
inductive GetError where
  | notFound
  | err (msg : String)
deriving DecidableEq, Repr

/-- The external collaborators of one reconciliation pass, as oracles:
    each field records what the corresponding external call would
    return during this pass. -/
structure Env where
  /-- r.client.Get(ctx, request.NamespacedName, csr) -/
  getCSR : Except GetError CertificateSigningRequest
  /-- clientset.CertificatesV1().CertificateSigningRequests().UpdateApproval -/
  updateApproval : CertificateSigningRequest → Except String CertificateSigningRequest
  /-- r.client.Get of the "openshift-ovn-kubernetes"/"signer-ca" secret -/
  getCASecret : Except String Secret
  /-- decodeCertificateRequest(csr.Spec.Request) -/
  decodeCertificateRequest : Bytes → Except String CertificateRequest
  /-- decodeCertificate(caSecret.Data["tls.crt"]) -/
  decodeCertificate : Bytes → Except String Certificate
  /-- decodePrivateKey(caSecret.Data["tls.key"]) -/
  decodePrivateKey : Bytes → Except String PrivateKey
  /-- newCertificateTemplate(certReq) (pure) -/
  newCertificateTemplate : CertificateRequest → CertificateTemplate
  /-- signCSR(template, publicKey, caCert, caKey) -/
  signCSR : CertificateTemplate → PublicKey → Certificate → PrivateKey →
      Except String Certificate
  /-- crypto.EncodeCertificates(signedCert) -/
  encodeCertificates : Certificate → Except String Bytes
  /-- r.client.Status().Update(ctx, csr); none means success -/
  updateStatus : CertificateSigningRequest → Option String

/-- One external call made during a reconciliation pass, in order.
    updateApproval and updateStatus carry the object written. -/
inductive Event where
  | getCSR (name : String)
  | updateApproval (csr : CertificateSigningRequest)
  | getCASecret
  | decodeCertificateRequest
  | decodeCertificate
  | decodePrivateKey
  | signCSR
  | encodeCertificates
  | updateStatus (csr : CertificateSigningRequest)
  | setDegraded (component : String) (reason : String) (message : String)
  | setNotDegraded (component : String)
deriving DecidableEq, Repr

/-- getCertApprovalCondition: scans all conditions, flagging the
    presence of an Approved-type and of a Denied-type condition. -/
def getCertApprovalCondition (status : CSRStatus) : Bool × Bool :=
  status.conditions.foldl
    (fun acc c =>
      (acc.1 || (c.type == certificateApproved),
       acc.2 || (c.type == certificateDenied)))
    (false, false)

/-- isCertificateRequestApproved: true iff an Approved condition exists
    and no Denied condition exists. -/
def isCertificateRequestApproved (csr : CertificateSigningRequest) : Bool :=
  let ad := getCertApprovalCondition csr.status
  ad.1 && !ad.2

/-- The condition appended by the approval transition. -/
def approvedCondition : Condition :=
  { type := certificateApproved
    status := "True"
    reason := "AutoApproved"
    message := "Automatically approved by " ++ signerName }

/-- The Failed condition appended by updateCSRStatusConditions. -/
def failedCondition (reason message : String) : Condition :=
  { type := certificateFailed
    status := "True"
    reason := reason
    message := message }

/-- The CSR with a Failed condition appended to its status conditions. -/
def withFailedCondition (csr : CertificateSigningRequest)
    (reason message : String) : CertificateSigningRequest :=
  { csr with status :=
      { csr.status with
          conditions := csr.status.conditions ++ [failedCondition reason message] } }

/-- updateCSRStatusConditions: append a Failed condition, attempt a
    status update; if the update fails, degrade aggregate health with
    reason UpdateFailure. Returns the mutated CSR and the trace. -/
def updateCSRStatusConditions (env : Env) (csr : CertificateSigningRequest)
    (reason message : String) : CertificateSigningRequest × List Event :=
  let csr' := withFailedCondition csr reason message
  match env.updateStatus csr' with
  | some e =>
      (csr', [Event.updateStatus csr',
              Event.setDegraded certificateSigner "UpdateFailure"
                ("Unable to update csr: " ++ e)])
  | none => (csr', [Event.updateStatus csr'])

/-- signerFailure: record the failure condition on the CSR, then
    degrade aggregate health with the given reason. -/
def signerFailure (env : Env) (csr : CertificateSigningRequest)
    (reason message : String) : List Event :=
  (updateCSRStatusConditions env csr reason message).2 ++
    [Event.setDegraded certificateSigner reason message]

/-- The CSR with the Approved condition appended (the in-memory mutation
    performed just before UpdateApproval). -/
def withApprovedCondition (csr : CertificateSigningRequest) :
    CertificateSigningRequest :=
  { csr with status :=
      { csr.status with
          conditions := csr.status.conditions ++ [approvedCondition] } }

/-- The body of ReconcileCSR.Reconcile after the CSR has been fetched
    successfully: ownership filter, completion filter, approval
    transition, then the signing pipeline. Returns the error the Go
    function returns and the trace of external calls after the fetch. -/
def reconcileCSR (env : Env) (requestName : String)
    (csr : CertificateSigningRequest) : Option String × List Event :=
  if csr.spec.signerName ≠ signerName then
    (none, [])
  else if csr.status.certificate.length ≠ 0 then
    (none, [])
  else if ¬ isCertificateRequestApproved csr then
    let csr' := withApprovedCondition csr
    match env.updateApproval csr' with
    | Except.error e => (some e, [Event.updateApproval csr'])
    | Except.ok _ => (none, [Event.updateApproval csr'])
  else
    match env.getCASecret with
    | Except.error e =>
        (some e, Event.getCASecret ::
          signerFailure env csr "CAFailure"
            ("Could not get CA certificate and key: " ++ e))
    | Except.ok caSecret =>
      match env.decodeCertificateRequest csr.spec.request with
      | Except.error e =>
          (none, Event.getCASecret :: Event.decodeCertificateRequest ::
            (updateCSRStatusConditions env csr "CSRDecodeFailure"
              ("Could not decode Certificate Request: " ++ e)).2)
      | Except.ok certReq =>
        match env.decodeCertificate (caSecret.get "tls.crt") with
        | Except.error e =>
            (none, Event.getCASecret :: Event.decodeCertificateRequest ::
              Event.decodeCertificate ::
              signerFailure env csr "CorruptCACert"
                ("Unable to decode CA certificate for " ++ signerName ++ ": " ++ e))
        | Except.ok caCert =>
          match env.decodePrivateKey (caSecret.get "tls.key") with
          | Except.error e =>
              (none, Event.getCASecret :: Event.decodeCertificateRequest ::
                Event.decodeCertificate :: Event.decodePrivateKey ::
                signerFailure env csr "CorruptCAKey"
                  ("Unable to decode CA private key for " ++ signerName ++ ": " ++ e))
          | Except.ok caKey =>
            match env.signCSR (env.newCertificateTemplate certReq)
                certReq.publicKey caCert caKey with
            | Except.error e =>
                (none, Event.getCASecret :: Event.decodeCertificateRequest ::
                  Event.decodeCertificate :: Event.decodePrivateKey ::
                  Event.signCSR ::
                  signerFailure env csr "SigningFailure"
                    ("Unable to sign certificate for " ++ requestName ++
                      " and signer " ++ signerName ++ ": " ++ e))
            | Except.ok signedCert =>
              match env.encodeCertificates signedCert with
              | Except.error e =>
                  (none, Event.getCASecret :: Event.decodeCertificateRequest ::
                    Event.decodeCertificate :: Event.decodePrivateKey ::
                    Event.signCSR :: Event.encodeCertificates ::
                    signerFailure env csr "EncodeFailure"
                      ("Could not encode certificate: " ++ e))
              | Except.ok pem =>
                let csr' := { csr with status :=
                    { csr.status with certificate := pem } }
                match env.updateStatus csr' with
                | some e =>
                    (some e, [Event.getCASecret, Event.decodeCertificateRequest,
                      Event.decodeCertificate, Event.decodePrivateKey,
                      Event.signCSR, Event.encodeCertificates,
                      Event.updateStatus csr'])
                | none =>
                    (none, [Event.getCASecret, Event.decodeCertificateRequest,
                      Event.decodeCertificate, Event.decodePrivateKey,
                      Event.signCSR, Event.encodeCertificates,
                      Event.updateStatus csr',
                      Event.setNotDegraded certificateSigner])

/-- ReconcileCSR.Reconcile: fetch the CSR (not-found resolves silently,
    other fetch errors propagate), then run the body. -/
def reconcile (env : Env) (requestName : String) : Option String × List Event :=
  match env.getCSR with
  | Except.error GetError.notFound => (none, [Event.getCSR requestName])
  | Except.error (GetError.err e) => (some e, [Event.getCSR requestName])
  | Except.ok csr =>
      let r := reconcileCSR env requestName csr
      (r.1, Event.getCSR requestName :: r.2)

/-- An event that writes external state (approval update, status update,
    health degrade / not-degrade). -/
def Event.isWrite : Event → Bool
  | .updateApproval _ => true
  | .updateStatus _ => true
  | .setDegraded _ _ _ => true
  | .setNotDegraded _ => true
  | _ => false

/-- An approval-subresource update. -/
def Event.isApproval : Event → Bool
  | .updateApproval _ => true
  | _ => false

/-- A step of the signing phase: CA load, PEM decode, sign, encode,
    status update, or clearing the degraded state. -/
def Event.isSigningStep : Event → Bool
  | .getCASecret => true
  | .decodeCertificateRequest => true
  | .decodeCertificate => true
  | .decodePrivateKey => true
  | .signCSR => true
  | .encodeCertificates => true
  | .updateStatus _ => true
  | .setNotDegraded _ => true
  | _ => false

/-- A health-degrading event. -/
def Event.isDegraded : Event → Bool
  | .setDegraded _ _ _ => true
  | _ => false

/-- The bytes of a string. -/
def strBytes (s : String) : Bytes := s.toList.map Char.toNat

/-- Modelled from the spec: the PEM codec lives in a file of this
    repository that is not under src (only its callers are), so a PEM
    block is modelled from §4.4: the BEGIN header line, the body, and
    the END footer line. -/
def pemBlock (t : String) (body : Bytes) : Bytes :=
  strBytes ("-----BEGIN " ++ t ++ "-----\n") ++ body ++
    strBytes ("-----END " ++ t ++ "-----\n")

/-- Modelled from the spec: `encodeCertificates(certs) -> PEM bytes`
    "serializes one or more certificates as concatenated PEM blocks,
    order preserved" (§4.4). -/
def encodeCertificatesPEM (certs : List Certificate) : Bytes :=
  (certs.map (fun c => pemBlock "CERTIFICATE" c.raw)).flatten

/-- Is this condition one the controller itself may append: an
    Approved/AutoApproved condition or a Failed condition, with status
    "True" and in particular never of type Denied? (Conditions already
    on the fetched request are also allowed.) -/
def condOK (orig : List Condition) (c : Condition) : Bool :=
  orig.contains c ||
    (c.status == "True" && !(c.type == certificateDenied) &&
      ((c.type == certificateApproved && c.reason == "AutoApproved") ||
       c.type == certificateFailed))

/-- Every condition carried by a write event is either an original
    condition of the fetched request or one of the two shapes the
    controller appends. -/
def eventConditionsOK (orig : List Condition) : Event → Bool
  | Event.updateApproval c => c.status.conditions.all (condOK orig)
  | Event.updateStatus c => c.status.conditions.all (condOK orig)
  | _ => true

/- Concrete fixtures used by witnesses and counterexamples. -/

/-- An environment fetching the given CSR, with every other collaborator
    given a fixed concrete behaviour. -/
def envWith (csr : CertificateSigningRequest) : Env :=
  { getCSR := Except.ok csr
    updateApproval := fun c => Except.ok c
    getCASecret := Except.error "secrets \x22signer-ca\x22 not found"
    decodeCertificateRequest := fun _ => Except.error "asn1 syntax error"
    decodeCertificate := fun _ => Except.error "no pem block"
    decodePrivateKey := fun _ => Except.error "no pem block"
    newCertificateTemplate := fun _ => { raw := [] }
    signCSR := fun _ _ _ _ => Except.error "incompatible key"
    encodeCertificates := fun _ => Except.error "encode error"
    updateStatus := fun _ => none }

/-- A request for this signer carrying only an externally written
    Denied condition. -/
def csrDenied : CertificateSigningRequest :=
  { name := "csr-denied"
    spec := { signerName := signerName, request := [48, 1] }
    status :=
      { conditions :=
          [{ type := certificateDenied
             status := "True"
             reason := "DeniedByAdmin"
             message := "denied by an external actor" }]
        certificate := [] } }

/-- A request for this signer with no conditions at all (undecided). -/
def csrUndecided : CertificateSigningRequest :=
  { name := "csr-new"
    spec := { signerName := signerName, request := [48, 1] }
    status := { conditions := [], certificate := [] } }

/-- A request for a different signer. -/
def csrForeign : CertificateSigningRequest :=
  { name := "csr-foreign"
    spec := { signerName := "kubernetes.io/kubelet-serving", request := [48, 1] }
    status := { conditions := [], certificate := [] } }

/-- A request for this signer that already carries a certificate. -/
def csrCertified : CertificateSigningRequest :=
  { name := "csr-done"
    spec := { signerName := signerName, request := [48, 1] }
    status := { conditions := [], certificate := [7, 7] } }

/-- An approved, uncertified request for this signer. -/
def csrApproved : CertificateSigningRequest :=
  { name := "csr-ok"
    spec := { signerName := signerName, request := [48, 2] }
    status :=
      { conditions :=
          [{ type := certificateApproved
             status := "True"
             reason := "AutoApproved"
             message := "Automatically approved by " ++ signerName }]
        certificate := [] } }

/-- A request carrying both an Approved and a Denied condition. -/
def csrBoth : CertificateSigningRequest :=
  { name := "csr-both"
    spec := { signerName := signerName, request := [48, 1] }
    status :=
      { conditions :=
          [{ type := certificateApproved
             status := "True"
             reason := "AutoApproved"
             message := "" },
           { type := certificateDenied
             status := "False"
             reason := "DeniedByAdmin"
             message := "" }]
        certificate := [] } }

def secretOK : Secret := { data := [("tls.crt", [10]), ("tls.key", [11])] }

def certReqOK : CertificateRequest := { publicKey := { raw := [3] }, raw := [48, 2] }

def caCertOK : Certificate := { raw := [4] }

def caKeyOK : PrivateKey := { raw := [5] }

def signedOK : Certificate := { raw := [6] }

/-- A fully healthy environment: approved request, readable CA secret,
    successful decode, sign, encode and status update. -/
def envHappy : Env :=
  { getCSR := Except.ok csrApproved
    updateApproval := fun c => Except.ok c
    getCASecret := Except.ok secretOK
    decodeCertificateRequest := fun _ => Except.ok certReqOK
    decodeCertificate := fun _ => Except.ok caCertOK
    decodePrivateKey := fun _ => Except.ok caKeyOK
    newCertificateTemplate := fun _ => { raw := [] }
    signCSR := fun _ _ _ _ => Except.ok signedOK
    encodeCertificates := fun c => Except.ok (encodeCertificatesPEM [c])
    updateStatus := fun _ => none }

/-- An environment in which the CA secret is unreadable. -/
def envCAFail : Env :=
  { envWith csrApproved with
      getCASecret := Except.error "secrets \x22signer-ca\x22 not found" }

/-- An environment in which the request PEM fails to decode and the
    subsequent status update also fails. -/
def envDecodeAndUpdateFail : Env :=
  { envHappy with
      decodeCertificateRequest := fun _ => Except.error "asn1 syntax error"
      updateStatus := fun _ => some "conflict" }

/-- An environment in which the request PEM fails to decode but status
    updates succeed. -/
def envDecodeFail : Env :=
  { envHappy with
      decodeCertificateRequest := fun _ => Except.error "asn1 syntax error" }

/-- An environment in which every status update fails. -/
def envUpdateFail : Env :=
  { envHappy with updateStatus := fun _ => some "conflict" }

/- Helper lemmas. -/

theorem foldl_approval_scan (l : List Condition) (a b : Bool) :
    l.foldl
      (fun acc c =>
        (acc.1 || (c.type == certificateApproved),
         acc.2 || (c.type == certificateDenied)))
      (a, b)
    = (a || l.any (fun c => c.type == certificateApproved),
       b || l.any (fun c => c.type == certificateDenied)) := by
  induction l generalizing a b with
  | nil => simp
  | cons x xs ih => simp [List.foldl_cons, ih, Bool.or_assoc]

/-- getCertApprovalCondition flags exactly the presence of an
    Approved-type and of a Denied-type condition anywhere in the list. -/
theorem getCertApprovalCondition_eq (s : CSRStatus) :
    getCertApprovalCondition s
      = (s.conditions.any (fun c => c.type == certificateApproved),
         s.conditions.any (fun c => c.type == certificateDenied)) := by
  simpa using foldl_approval_scan s.conditions false false

theorem isCertificateRequestApproved_eq (csr : CertificateSigningRequest) :
    isCertificateRequestApproved csr
      = (csr.status.conditions.any (fun c => c.type == certificateApproved) &&
         !(csr.status.conditions.any (fun c => c.type == certificateDenied))) := by
  simp [isCertificateRequestApproved, getCertApprovalCondition_eq]

theorem updateCSRStatusConditions_no_approval (env : Env)
    (c : CertificateSigningRequest) (r m : String) :
    ((updateCSRStatusConditions env c r m).2.any Event.isApproval) = false := by
  simp only [updateCSRStatusConditions]
  split <;> simp [Event.isApproval]

theorem signerFailure_no_approval (env : Env)
    (c : CertificateSigningRequest) (r m : String) :
    ((signerFailure env c r m).any Event.isApproval) = false := by
  simp [signerFailure, List.any_append, updateCSRStatusConditions_no_approval,
    Event.isApproval]

/-- If the fetched request is classified approved, no approval update
    happens in the pass. -/
theorem reconcileCSR_no_approval_of_approved (env : Env) (n : String)
    (csr : CertificateSigningRequest)
    (happ : isCertificateRequestApproved csr = true) :
    ((reconcileCSR env n csr).2.any Event.isApproval) = false := by
  unfold reconcileCSR
  simp only [happ, not_true_eq_false, if_false]
  repeat' split
  all_goals
    simp [Event.isApproval, List.any_cons, List.any_append,
      signerFailure_no_approval, updateCSRStatusConditions_no_approval]

/-- In any pass, either no approval update happens, or the whole trace
    after the fetch is just the one approval update. -/
theorem reconcileCSR_approval_shape (env : Env) (n : String)
    (csr : CertificateSigningRequest) :
    ((reconcileCSR env n csr).2.any Event.isApproval) = false ∨
    (reconcileCSR env n csr).2 = [Event.updateApproval (withApprovedCondition csr)] := by
  by_cases happ : isCertificateRequestApproved csr = true
  · exact Or.inl (reconcileCSR_no_approval_of_approved env n csr happ)
  · unfold reconcileCSR
    by_cases h1 : csr.spec.signerName ≠ signerName
    · simp [h1, Event.isApproval]
    · by_cases h2 : csr.status.certificate.length ≠ 0
      · simp [h1, h2, Event.isApproval]
      · cases henv : env.updateApproval (withApprovedCondition csr) <;>
          simp [h1, h2, happ, henv, Event.isApproval]

/-- Claim C2 (confirmed): for every condition set containing both an
    Approved-type and a Denied-type condition, the approval decision
    classifies the request as not approved (denial precedence),
    regardless of how many Approved conditions exist or of any
    condition's status value. -/
theorem C2_denial_precedence (csr : CertificateSigningRequest)
    (_ha : ∃ c ∈ csr.status.conditions, c.type = certificateApproved)
    (hd : ∃ c ∈ csr.status.conditions, c.type = certificateDenied) :
    isCertificateRequestApproved csr = false := by
  obtain ⟨c, hc, ht⟩ := hd
  have hden : csr.status.conditions.any (fun c => c.type == certificateDenied) = true :=
    List.any_eq_true.mpr ⟨c, hc, by simp [ht]⟩
  simp [isCertificateRequestApproved_eq, hden]

/-- Witness for C2: a concrete request carrying both conditions. -/
theorem C2_denial_precedence_witness :
    isCertificateRequestApproved csrBoth = false :=
  C2_denial_precedence csrBoth (by decide) (by decide)

/-- Claim C3 (confirmed): a request whose signerName is not this
    signer's identity is reconciled with zero writes (no condition
    appended, no certificate set, no approval or status update, no
    health change) and no error. -/
theorem C3_foreign_signer_zero_writes (env : Env) (n : String)
    (csr : CertificateSigningRequest)
    (hget : env.getCSR = Except.ok csr)
    (h : csr.spec.signerName ≠ signerName) :
    (reconcile env n).1 = none ∧
    ((reconcile env n).2.any Event.isWrite) = false := by
  simp [reconcile, hget, reconcileCSR, h, Event.isWrite]

/-- Witness for C3: a concrete request for another signer. -/
theorem C3_foreign_signer_zero_writes_witness :
    (reconcile (envWith csrForeign) "csr-foreign").1 = none ∧
    ((reconcile (envWith csrForeign) "csr-foreign").2.any Event.isWrite) = false :=
  C3_foreign_signer_zero_writes (envWith csrForeign) "csr-foreign" csrForeign
    rfl (by decide)

/-- Claim C4 (confirmed): a request already carrying a non-empty
    certificate is reconciled with zero writes and no error; issuance
    is one-shot under redelivery. -/
theorem C4_certified_zero_writes (env : Env) (n : String)
    (csr : CertificateSigningRequest)
    (hget : env.getCSR = Except.ok csr)
    (h : csr.status.certificate ≠ []) :
    (reconcile env n).1 = none ∧
    ((reconcile env n).2.any Event.isWrite) = false := by
  by_cases hs : csr.spec.signerName = signerName
  · have hlen : csr.status.certificate.length ≠ 0 := by
      simpa [List.length_eq_zero] using h
    simp [reconcile, hget, reconcileCSR, hs, hlen, Event.isWrite]
  · simp [reconcile, hget, reconcileCSR, hs, Event.isWrite]

/-- Witness for C4: a concrete already-certified request. -/
theorem C4_certified_zero_writes_witness :
    (reconcile (envWith csrCertified) "csr-done").1 = none ∧
    ((reconcile (envWith csrCertified) "csr-done").2.any Event.isWrite) = false :=
  C4_certified_zero_writes (envWith csrCertified) "csr-done" csrCertified
    rfl (by decide)

/-- Counterexample for C1: a request for this signer whose conditions
    contain a Denied-type condition (and no Approved-type condition) is
    classified not approved, so reconciliation DOES perform the
    approval transition: an approval update carrying the appended
    Approved condition is issued. -/
theorem C1_counterexample :
    (csrDenied.status.conditions.any (fun c => c.type == certificateDenied)) = true ∧
    ((reconcile (envWith csrDenied) "csr-denied").2.any Event.isApproval) = true ∧
    ((reconcile (envWith csrDenied) "csr-denied").2.contains
      (Event.updateApproval (withApprovedCondition csrDenied))) = true := by
  refine ⟨by decide, by decide, by decide⟩

/-- Claim C1 (corrected): the approval transition is performed exactly
    when the request is not classified approved, i.e. when the
    conditions lack an Approved-type condition or contain a Denied-type
    condition; in particular a request whose conditions contain a
    Denied-type condition but no Approved-type condition does undergo
    the approval transition. -/
theorem C1_approval_transition_iff (env : Env) (n : String)
    (csr : CertificateSigningRequest)
    (hget : env.getCSR = Except.ok csr)
    (hsig : csr.spec.signerName = signerName)
    (hcert : csr.status.certificate = []) :
    ((reconcile env n).2.any Event.isApproval) = true ↔
      ¬ (csr.status.conditions.any (fun c => c.type == certificateApproved) = true ∧
         csr.status.conditions.any (fun c => c.type == certificateDenied) = false) := by
  have hlen : ¬ csr.status.certificate.length ≠ 0 := by simp [hcert]
  by_cases happ : isCertificateRequestApproved csr = true
  · have hno := reconcileCSR_no_approval_of_approved env n csr happ
    have happ' := happ
    rw [isCertificateRequestApproved_eq, Bool.and_eq_true, Bool.not_eq_true'] at happ'
    have hfalse : ((reconcile env n).2.any Event.isApproval) = false := by
      simp [reconcile, hget, List.any_cons, Event.isApproval, hno]
    rw [hfalse]
    simp [happ'.1, happ'.2]
  · have happ' : isCertificateRequestApproved csr = false := by
      simpa using happ
    have happ'' := happ'
    rw [isCertificateRequestApproved_eq] at happ''
    constructor
    · intro _ hcontra
      simp [hcontra.1, hcontra.2] at happ''
    · intro _
      simp only [reconcile, hget, List.any_cons]
      unfold reconcileCSR
      simp only [hsig, ne_eq, not_true_eq_false, if_false, hlen, happ',
        Bool.false_eq_true, not_false_eq_true, if_true]
      cases henv : env.updateApproval (withApprovedCondition csr) <;>
        simp [henv, Event.isApproval]

/-- Witness for C1's corrected statement at the Denied-only request. -/
theorem C1_approval_transition_iff_witness :
    ((reconcile (envWith csrDenied) "csr-denied").2.any Event.isApproval) = true ↔
      ¬ (csrDenied.status.conditions.any (fun c => c.type == certificateApproved) = true ∧
         csrDenied.status.conditions.any (fun c => c.type == certificateDenied) = false) :=
  C1_approval_transition_iff (envWith csrDenied) "csr-denied" csrDenied
    rfl rfl rfl

/-- Claim C5 (confirmed): a pass that performs the approval transition
    runs no signing-related step afterwards: no CA load, no PEM decode,
    no sign, no encode, no status update, no clearing of the degraded
    state happens in that same pass. -/
theorem C5_approval_stops_pass (env : Env) (n : String)
    (h : ((reconcile env n).2.any Event.isApproval) = true) :
    ((reconcile env n).2.any Event.isSigningStep) = false := by
  rcases hg : env.getCSR with ge | csr
  · exfalso
    cases ge <;> simp [reconcile, hg, Event.isApproval] at h
  · rcases reconcileCSR_approval_shape env n csr with hshape | hshape
    · exfalso
      simp [reconcile, hg, List.any_cons, Event.isApproval, hshape] at h
    · simp [reconcile, hg, List.any_cons, hshape, Event.isSigningStep]

/-- Witness for C5: an undecided request, whose pass performs the
    approval transition. -/
theorem C5_approval_stops_pass_witness :
    ((reconcile (envWith csrUndecided) "csr-new").2.any Event.isSigningStep) = false :=
  C5_approval_stops_pass (envWith csrUndecided) "csr-new" (by decide)

theorem strBytes_length (s : String) : (strBytes s).length = s.length := by
  rw [strBytes, List.length_map]
  rfl

theorem pemBlock_ne_nil (t : String) (b : Bytes) : pemBlock t b ≠ [] := by
  intro h
  have hl := congrArg List.length h
  simp [pemBlock, strBytes_length, String.length_append] at hl
  exact absurd hl.1.1.1 (by decide)

/-- Encoding one certificate produces non-empty PEM bytes. -/
theorem encodeCertificatesPEM_single_ne_nil (c : Certificate) :
    encodeCertificatesPEM [c] ≠ [] := by
  simpa [encodeCertificatesPEM] using pemBlock_ne_nil "CERTIFICATE" c.raw

/-- Claim C6 (confirmed): an approved request with matching signer,
    empty certificate, readable CA secret, well-formed request PEM and
    CA material, and successful signing, encoding and status update
    ends the pass with the certificate field set to the non-empty PEM
    encoding of the signed certificate, aggregate health set
    NotDegraded for the CertificateSigner component, and no error. -/
theorem C6_success_issues_certificate (env : Env) (n : String)
    (csr : CertificateSigningRequest) (s : Secret)
    (certReq : CertificateRequest) (caCert : Certificate)
    (caKey : PrivateKey) (signedCert : Certificate)
    (hget : env.getCSR = Except.ok csr)
    (hsig : csr.spec.signerName = signerName)
    (hcert : csr.status.certificate = [])
    (happ : isCertificateRequestApproved csr = true)
    (hsec : env.getCASecret = Except.ok s)
    (hreq : env.decodeCertificateRequest csr.spec.request = Except.ok certReq)
    (hca : env.decodeCertificate (s.get "tls.crt") = Except.ok caCert)
    (hkey : env.decodePrivateKey (s.get "tls.key") = Except.ok caKey)
    (hsign : env.signCSR (env.newCertificateTemplate certReq) certReq.publicKey
        caCert caKey = Except.ok signedCert)
    (henc : env.encodeCertificates signedCert
        = Except.ok (encodeCertificatesPEM [signedCert]))
    (hupd : env.updateStatus
        { csr with status :=
            { csr.status with certificate := encodeCertificatesPEM [signedCert] } }
        = none) :
    (reconcile env n).1 = none ∧
    (reconcile env n).2 =
      [Event.getCSR n, Event.getCASecret, Event.decodeCertificateRequest,
       Event.decodeCertificate, Event.decodePrivateKey, Event.signCSR,
       Event.encodeCertificates,
       Event.updateStatus
         { csr with status :=
             { csr.status with certificate := encodeCertificatesPEM [signedCert] } },
       Event.setNotDegraded certificateSigner] ∧
    encodeCertificatesPEM [signedCert] ≠ [] := by
  have hlen : ¬ csr.status.certificate.length ≠ 0 := by simp [hcert]
  refine ⟨?_, ?_, encodeCertificatesPEM_single_ne_nil signedCert⟩ <;>
    simp [reconcile, hget, reconcileCSR, hsig, hlen, happ, hsec, hreq, hca,
      hkey, hsign, henc, hupd]

/-- Witness for C6: the fully healthy environment. -/
theorem C6_success_issues_certificate_witness :
    (reconcile envHappy "csr-ok").1 = none ∧
    (reconcile envHappy "csr-ok").2 =
      [Event.getCSR "csr-ok", Event.getCASecret, Event.decodeCertificateRequest,
       Event.decodeCertificate, Event.decodePrivateKey, Event.signCSR,
       Event.encodeCertificates,
       Event.updateStatus
         { csrApproved with status :=
             { csrApproved.status with certificate := encodeCertificatesPEM [signedOK] } },
       Event.setNotDegraded certificateSigner] ∧
    encodeCertificatesPEM [signedOK] ≠ [] :=
  C6_success_issues_certificate envHappy "csr-ok" csrApproved secretOK
    certReqOK caCertOK caKeyOK signedOK rfl rfl rfl (by decide) rfl rfl rfl
    rfl rfl rfl rfl

/-- Claim C7 (confirmed): when fetching the CA secret fails for an
    approved, uncertified request with matching signer, a Failed
    condition with reason CAFailure is appended and its status update
    attempted, aggregate health is degraded for the CertificateSigner
    component with that reason, and the fetch error is returned. -/
theorem C7_ca_fetch_failure (env : Env) (n : String)
    (csr : CertificateSigningRequest) (e : String)
    (hget : env.getCSR = Except.ok csr)
    (hsig : csr.spec.signerName = signerName)
    (hcert : csr.status.certificate = [])
    (happ : isCertificateRequestApproved csr = true)
    (hsec : env.getCASecret = Except.error e) :
    (reconcile env n).1 = some e ∧
    Event.updateStatus (withFailedCondition csr "CAFailure"
        ("Could not get CA certificate and key: " ++ e)) ∈ (reconcile env n).2 ∧
    Event.setDegraded certificateSigner "CAFailure"
        ("Could not get CA certificate and key: " ++ e) ∈ (reconcile env n).2 := by
  have hlen : ¬ csr.status.certificate.length ≠ 0 := by simp [hcert]
  cases hupd : env.updateStatus (withFailedCondition csr "CAFailure"
      ("Could not get CA certificate and key: " ++ e)) <;>
    simp [reconcile, hget, reconcileCSR, hsig, hlen, happ, hsec,
      signerFailure, updateCSRStatusConditions, hupd]

/-- Witness for C7: an approved request with an unreadable CA secret. -/
theorem C7_ca_fetch_failure_witness :
    (reconcile envCAFail "csr-ok").1 = some "secrets \x22signer-ca\x22 not found" ∧
    Event.updateStatus (withFailedCondition csrApproved "CAFailure"
        ("Could not get CA certificate and key: " ++ "secrets \x22signer-ca\x22 not found"))
      ∈ (reconcile envCAFail "csr-ok").2 ∧
    Event.setDegraded certificateSigner "CAFailure"
        ("Could not get CA certificate and key: " ++ "secrets \x22signer-ca\x22 not found")
      ∈ (reconcile envCAFail "csr-ok").2 :=
  C7_ca_fetch_failure envCAFail "csr-ok" csrApproved
    "secrets \x22signer-ca\x22 not found" rfl rfl rfl (by decide) rfl

/-- Counterexample for C8: an approved, uncertified request for this
    signer with a readable CA secret whose request PEM fails to decode,
    in a pass where the Failed-condition status update itself also
    fails; aggregate health IS degraded (with reason UpdateFailure),
    contradicting the claim that health is untouched in every such
    pass. -/
theorem C8_counterexample :
    csrApproved.spec.signerName = signerName ∧
    csrApproved.status.certificate = [] ∧
    isCertificateRequestApproved csrApproved = true ∧
    envDecodeAndUpdateFail.getCASecret = Except.ok secretOK ∧
    envDecodeAndUpdateFail.decodeCertificateRequest csrApproved.spec.request
      = Except.error "asn1 syntax error" ∧
    ((reconcile envDecodeAndUpdateFail "csr-ok").2.any Event.isDegraded) = true :=
  ⟨rfl, rfl, by decide, rfl, rfl, by decide⟩

/-- Claim C8 (corrected): when decoding the request PEM of an approved,
    uncertified, matching request fails, a Failed condition with reason
    CSRDecodeFailure is appended and no error is returned; provided the
    Failed-condition status update itself succeeds, aggregate health is
    not degraded. (If that secondary update fails, health is degraded
    with reason UpdateFailure, per the secondary-fault rule.) -/
theorem C8_decode_failure_no_degrade (env : Env) (n : String)
    (csr : CertificateSigningRequest) (s : Secret) (e : String)
    (hget : env.getCSR = Except.ok csr)
    (hsig : csr.spec.signerName = signerName)
    (hcert : csr.status.certificate = [])
    (happ : isCertificateRequestApproved csr = true)
    (hsec : env.getCASecret = Except.ok s)
    (hreq : env.decodeCertificateRequest csr.spec.request = Except.error e)
    (hupd : env.updateStatus (withFailedCondition csr "CSRDecodeFailure"
        ("Could not decode Certificate Request: " ++ e)) = none) :
    (reconcile env n).1 = none ∧
    (reconcile env n).2 =
      [Event.getCSR n, Event.getCASecret, Event.decodeCertificateRequest,
       Event.updateStatus (withFailedCondition csr "CSRDecodeFailure"
         ("Could not decode Certificate Request: " ++ e))] ∧
    ((reconcile env n).2.any Event.isDegraded) = false := by
  have hlen : ¬ csr.status.certificate.length ≠ 0 := by simp [hcert]
  refine ⟨?_, ?_, ?_⟩ <;>
    simp [reconcile, hget, reconcileCSR, hsig, hlen, happ, hsec, hreq,
      updateCSRStatusConditions, hupd, Event.isDegraded]

/-- Witness for C8's corrected statement: decode fails, status updates
    succeed. -/
theorem C8_decode_failure_no_degrade_witness :
    (reconcile envDecodeFail "csr-ok").1 = none ∧
    (reconcile envDecodeFail "csr-ok").2 =
      [Event.getCSR "csr-ok", Event.getCASecret, Event.decodeCertificateRequest,
       Event.updateStatus (withFailedCondition csrApproved "CSRDecodeFailure"
         ("Could not decode Certificate Request: " ++ "asn1 syntax error"))] ∧
    ((reconcile envDecodeFail "csr-ok").2.any Event.isDegraded) = false :=
  C8_decode_failure_no_degrade envDecodeFail "csr-ok" csrApproved secretOK
    "asn1 syntax error" rfl rfl rfl (by decide) rfl rfl rfl

/-- Claim C9 (confirmed): whenever the status update persisting an
    appended Failed condition fails, the controller degrades aggregate
    health for the CertificateSigner component with reason
    UpdateFailure — for every failure reason, including client-fault
    reasons. -/
theorem C9_update_failure_degrades (env : Env)
    (csr : CertificateSigningRequest) (reason message e : String)
    (h : env.updateStatus (withFailedCondition csr reason message) = some e) :
    Event.setDegraded certificateSigner "UpdateFailure"
        ("Unable to update csr: " ++ e)
      ∈ (updateCSRStatusConditions env csr reason message).2 := by
  simp [updateCSRStatusConditions, h]

/-- Witness for C9: a client-fault reason whose condition update
    fails. -/
theorem C9_update_failure_degrades_witness :
    Event.setDegraded certificateSigner "UpdateFailure"
        ("Unable to update csr: " ++ "conflict")
      ∈ (updateCSRStatusConditions envUpdateFail csrApproved
          "CSRDecodeFailure" "Could not decode Certificate Request: x").2 :=
  C9_update_failure_degrades envUpdateFail csrApproved
    "CSRDecodeFailure" "Could not decode Certificate Request: x" "conflict" rfl

theorem condOK_self (orig : List Condition) :
    (orig.all (condOK orig)) = true := by
  rw [List.all_eq_true]
  intro c hc
  simp [condOK]
  exact Or.inl hc

theorem withFailed_all_condOK (csr : CertificateSigningRequest) (r m : String) :
    ((withFailedCondition csr r m).status.conditions.all
      (condOK csr.status.conditions)) = true := by
  have h1 : (certificateFailed == certificateDenied) = false := by decide
  have h2 : (("True" : String) == "True") = true := by decide
  have h3 : (certificateFailed == certificateFailed) = true := by decide
  simp [withFailedCondition, List.all_append, condOK_self, condOK,
    failedCondition, h1, h2, h3]

theorem withApproved_all_condOK (csr : CertificateSigningRequest) :
    ((withApprovedCondition csr).status.conditions.all
      (condOK csr.status.conditions)) = true := by
  have h1 : (certificateApproved == certificateDenied) = false := by decide
  have h2 : (("True" : String) == "True") = true := by decide
  have h3 : (certificateApproved == certificateApproved) = true := by decide
  have h4 : (("AutoApproved" : String) == "AutoApproved") = true := by decide
  simp [withApprovedCondition, List.all_append, condOK_self, condOK,
    approvedCondition, h1, h2, h3, h4]

theorem updateConds_all_eventOK (env : Env)
    (csr : CertificateSigningRequest) (r m : String) :
    ((updateCSRStatusConditions env csr r m).2.all
      (eventConditionsOK csr.status.conditions)) = true := by
  simp only [updateCSRStatusConditions]
  split <;> simp [eventConditionsOK, withFailed_all_condOK]

theorem signerFailure_all_eventOK (env : Env)
    (csr : CertificateSigningRequest) (r m : String) :
    ((signerFailure env csr r m).all
      (eventConditionsOK csr.status.conditions)) = true := by
  simp [signerFailure, List.all_append, updateConds_all_eventOK,
    eventConditionsOK]

/-- Claim C10 (confirmed): every condition carried by any write the
    controller issues is either already on the fetched request or one
    of the two shapes the controller appends — Approved with reason
    AutoApproved, or Failed — always with status "True" and never of
    type Denied. Denial can only originate externally. -/
theorem C10_appended_conditions_invariant (env : Env) (n : String)
    (csr : CertificateSigningRequest)
    (hget : env.getCSR = Except.ok csr) :
    ((reconcile env n).2.all (eventConditionsOK csr.status.conditions)) = true := by
  suffices h : ((reconcileCSR env n csr).2.all
      (eventConditionsOK csr.status.conditions)) = true by
    simp [reconcile, hget, List.all_cons, eventConditionsOK, h]
  simp only [reconcileCSR]
  repeat' split
  all_goals
    simp [eventConditionsOK, List.all_cons, List.all_append,
      signerFailure_all_eventOK, updateConds_all_eventOK,
      withApproved_all_condOK, condOK_self]

/-- Witness for C10 on the healthy environment. -/
theorem C10_appended_conditions_invariant_witness :
    ((reconcile envHappy "csr-ok").2.all
      (eventConditionsOK csrApproved.status.conditions)) = true :=
  C10_appended_conditions_invariant envHappy "csr-ok" csrApproved rfl

end Signer
